import Mathlib

/-!
Verification of the AgriSense Pro authentication subsystem.

Shallow embedding of the auth code of the repository:
  backend/core/config.py      (Settings: token lifetimes, password policy)
  backend/core/security.py    (password hashing wrapper, strength validation,
                               JWT issue/verify, in-memory rate limiter)
  backend/api/routes/auth.py  (register, login, refresh, forgot/reset password,
                               email verification endpoints; these are the
                               routes mounted by main.py)
  backend/services/auth_service.py (a parallel service-layer implementation of
                               the same flows; modelled where it differs from
                               the routes)

Conventions of the embedding:
  - time is an integer number of seconds (`Int`); `datetime.utcnow()` becomes an
    explicit `now` parameter,
  - randomly generated values (uuids, urlsafe tokens, jti claims, bcrypt salts)
    become explicit parameters,
  - the SQLite tables `users` and `user_sessions` become lists of records; an
    SQL `INSERT` appends (rowid order), `fetch_one` is `List.find?` (first row),
    an `UPDATE ... WHERE` is a `List.map` guarded by the WHERE predicate,
  - the rate-limit admission decision of a handler (which is keyed by client ip,
    never by the data the claims quantify over) is passed in as `allowed : Bool`.
-/

namespace Agri

/-! ### Settings (backend/core/config.py) -/

def ACCESS_TOKEN_EXPIRE_MINUTES : Int := 30

def REFRESH_TOKEN_EXPIRE_DAYS : Int := 7

def PASSWORD_MIN_LENGTH : Nat := 8

/-! ### Password hashing (backend/core/security.py)

`hash_password`/`verify_password` wrap passlib's `CryptContext` configured with
the bcrypt scheme.  A stored hash string is modelled algebraically: either a
well-formed bcrypt hash (carrying the salt and the password it was produced
from) or a malformed string that no scheme of the context recognises. -/

inductive HashStr where
  | bcrypt (salt : String) (pw : String)
  | malformed (s : String)
deriving DecidableEq, Repr

/-- Modelled from the library contract of passlib (not part of this repository):
`CryptContext.verify(secret, hash)` returns a `bool` for a hash that one of the
configured schemes recognises, and raises `UnknownHashError` (a `ValueError`)
when the hash string cannot be identified.  Raising is modelled as
`Except.error`. -/
def pwdContextVerify (plain : String) (hashed : HashStr) : Except String Bool :=
  match hashed with
  | .bcrypt _ pw => .ok (plain == pw)
  | .malformed _ => .error "UnknownHashError"

/-- `hash_password` (security.py): `pwd_context.hash(password)`; the fresh salt
is an explicit parameter. -/
def hash_password (password : String) (salt : String) : HashStr :=
  .bcrypt salt password

/-- `verify_password` (security.py): the body is exactly
`return pwd_context.verify(plain_password, hashed_password)` with no
try/except, so any library exception propagates to the caller. -/
def verify_password (plain_password : String) (hashed_password : HashStr) :
    Except String Bool :=
  pwdContextVerify plain_password hashed_password

/-- The punctuation set of `validate_password_strength` (security.py). -/
def special_chars : List Char := "!@#$%^&*()_+-=[]\x7b\x7d|;:,.<>?".data

/-- `validate_password_strength` (security.py): length, uppercase, lowercase,
digit, special character — checked in this order, first violation reported. -/
def validate_password_strength (password : String) : Bool × String :=
  if password.length < PASSWORD_MIN_LENGTH then
    (false, "Password must be at least 8 characters")
  else if !password.data.any (fun c => c.isUpper) then
    (false, "Password must contain at least one uppercase letter")
  else if !password.data.any (fun c => c.isLower) then
    (false, "Password must contain at least one lowercase letter")
  else if !password.data.any (fun c => c.isDigit) then
    (false, "Password must contain at least one digit")
  else if !password.data.any (fun c => special_chars.contains c) then
    (false, "Password must contain at least one special character")
  else (true, "")

/-! ### Python `str.lower()`

The auth code calls `.lower()` on e-mail addresses; the addresses this system
accepts are ASCII (`validate_email`'s regex), on which Python's `str.lower()`
is the character-wise ASCII lowering. -/

def pyLower (s : String) : String := ⟨s.data.map Char.toLower⟩

/-! ### JWT tokens (backend/core/security.py)

A signed token is modelled as its claim set together with the key it was signed
with; `jwt.decode` succeeds exactly when the verification key matches the
signing key and the `exp` claim has not passed (python-jose rejects a token
with `exp < now`, leeway 0).  The claim shape is the one `create_access_token`
/ `create_refresh_token` produce: `sub`, `email`, `role`, `exp`, `iat`, a
`type` discriminator, and (refresh only) a `jti`. -/

structure JwtClaims where
  sub : String
  email : String
  role : String
  exp : Int
  iat : Int
  typ : String
  jti : Option String
deriving DecidableEq, Repr

structure Jwt where
  claims : JwtClaims
  key : String
deriving DecidableEq, Repr

/-- A value stored in (or presented against) the `refresh_token` column of
`user_sessions`.  The code stores either a JWT string, or an opaque token
prefixed with the literal `"reset:"` or `"verify:"`.  The three shapes are
pairwise distinct as strings (a JWT is dot-separated base64url and contains no
colon), so they are modelled as disjoint constructors; equality of the model
matches string equality of the column. -/
inductive StoredSecret where
  | jwtTok (j : Jwt)
  | resetTok (t : String)
  | verifyTok (t : String)
deriving DecidableEq, Repr

/-- `decode_token` (security.py): `jwt.decode(token, SECRET_KEY, [ALGORITHM])`,
returning the payload, or `None` on any `JWTError` (bad signature or expired). -/
def decode_token (token : Jwt) (secret_key : String) (now : Int) :
    Option JwtClaims :=
  if token.key == secret_key && now ≤ token.claims.exp then some token.claims
  else none

/-- The result model of `verify_token` (`TokenData` in security.py). -/
structure TokenData where
  user_id : String
  email : Option String
  role : String
  token_type : String
  exp : Int
deriving DecidableEq, Repr

/-- `verify_token` (security.py): decode, check the `type` discriminator, then
`user_id = payload.get("sub") or payload.get("user_id")` — an *empty* `sub`
is falsy in Python and the tokens this codebase mints carry no `user_id`
claim, so an empty `sub` yields `None`.  A non-JWT string fails `jwt.decode`. -/
def verify_token (token : StoredSecret) (token_type : String)
    (secret_key : String) (now : Int) : Option TokenData :=
  match token with
  | .jwtTok j =>
    match decode_token j secret_key now with
    | none => none
    | some payload =>
      if payload.typ != token_type then none
      else if payload.sub == "" then none
      else some ⟨payload.sub, some payload.email, payload.role, token_type,
                 payload.exp⟩
  | .resetTok _ => none
  | .verifyTok _ => none

/-- `create_access_token` (security.py) with the default expiry:
`exp = now + ACCESS_TOKEN_EXPIRE_MINUTES`, `type = "access"`. -/
def create_access_token (sub email role : String) (secret_key : String)
    (now : Int) : Jwt :=
  ⟨⟨sub, email, role, now + ACCESS_TOKEN_EXPIRE_MINUTES * 60, now, "access",
    none⟩, secret_key⟩

/-- `create_refresh_token` (security.py) with the default expiry:
`exp = now + REFRESH_TOKEN_EXPIRE_DAYS`, `type = "refresh"`, fresh `jti`. -/
def create_refresh_token (sub email role : String) (secret_key : String)
    (now : Int) (jti : String) : Jwt :=
  ⟨⟨sub, email, role, now + REFRESH_TOKEN_EXPIRE_DAYS * 86400, now, "refresh",
    some jti⟩, secret_key⟩

structure TokenPair where
  access_token : Jwt
  refresh_token : Jwt
  token_type : String
  expires_in : Int
deriving DecidableEq, Repr

/-- `create_token_pair` (security.py). -/
def create_token_pair (user_id email role : String) (secret_key : String)
    (now : Int) (jti : String) : TokenPair :=
  { access_token := create_access_token user_id email role secret_key now
    refresh_token := create_refresh_token user_id email role secret_key now jti
    token_type := "bearer"
    expires_in := ACCESS_TOKEN_EXPIRE_MINUTES * 60 }

/-! ### Rate limiter (backend/core/security.py, class RateLimiter) -/

/-- The per-key call on the recorded-timestamp list:
keep `req_time > now - window_seconds`, reject without recording when the
surviving count is at least `max_requests`, otherwise append `now`.
Returns `((allowed, remaining), new list)`. -/
def is_allowed_list (l : List Int) (max_requests : Nat)
    (window_seconds now : Int) : (Bool × Nat) × List Int :=
  let kept := l.filter (fun t => decide (now - window_seconds < t))
  if max_requests ≤ kept.length then ((false, 0), kept)
  else ((true, max_requests - (kept.length + 1)), kept ++ [now])

/-- `RateLimiter._requests`: a dict from key to the list of admitted
timestamps (missing key = empty list). -/
structure RateLimiter where
  requests : String → List Int

/-- `RateLimiter.is_allowed` (security.py). -/
def RateLimiter.is_allowed (rl : RateLimiter) (key : String)
    (max_requests : Nat) (window_seconds : Int) (now : Int) :
    (Bool × Nat) × RateLimiter :=
  let r := is_allowed_list (rl.requests key) max_requests window_seconds now
  (r.1, ⟨Function.update rl.requests key r.2⟩)

/-- A sequence of `is_allowed` calls for one key, returning the verdicts. -/
def runCalls (rl : RateLimiter) (key : String) (max_requests : Nat)
    (window_seconds : Int) : List Int → List Bool × RateLimiter
  | [] => ([], rl)
  | t :: ts =>
    let step := rl.is_allowed key max_requests window_seconds t
    let rest := runCalls step.2 key max_requests window_seconds ts
    (step.1.1 :: rest.1, rest.2)

/-! ### Database model (backend/db/database.py, SQLite tables)

`users` and `user_sessions` rows.  `fetch_one` returns the first row matching
the WHERE clause in rowid (insertion) order; an `INSERT` appends; an
`UPDATE ... WHERE` maps the update over the rows selected by the predicate. -/

structure UserRec where
  id : String
  email : String
  phone : Option String
  password_hash : HashStr
  full_name : String
  role : String
  is_active : Bool
  email_verified : Bool
  created_at : Int
  updated_at : Int
  last_login_at : Option Int
deriving DecidableEq, Repr

structure SessionRec where
  id : Nat
  user_id : String
  refresh_token : StoredSecret
  ip_address : Option String
  device_info : Option String
  expires_at : Int
  created_at : Int
  is_valid : Bool
deriving DecidableEq, Repr

structure DBState where
  users : List UserRec
  sessions : List SessionRec
deriving DecidableEq, Repr

/-- `SELECT ... FROM users WHERE email = ?` -/
def fetchUserByEmail (s : DBState) (email : String) : Option UserRec :=
  s.users.find? (fun u => u.email == email)

/-- `SELECT ... FROM users WHERE email = ? AND is_active = 1` -/
def fetchActiveUserByEmail (s : DBState) (email : String) : Option UserRec :=
  s.users.find? (fun u => u.email == email && u.is_active)

/-- `SELECT ... FROM users WHERE id = ? AND is_active = 1` -/
def fetchActiveUserById (s : DBState) (uid : String) : Option UserRec :=
  s.users.find? (fun u => u.id == uid && u.is_active)

/-- `SELECT id FROM users WHERE phone = ?` -/
def fetchUserByPhone (s : DBState) (ph : String) : Option UserRec :=
  s.users.find? (fun u => u.phone == some ph)

/-- `SELECT * FROM user_sessions WHERE refresh_token = ? AND is_valid = 1` -/
def fetchValidSessionBySecret (s : DBState) (sec : StoredSecret) :
    Option SessionRec :=
  s.sessions.find? (fun r => r.refresh_token == sec && r.is_valid)

/-- The reset-token lookup of `reset_password` (auth.py):
`refresh_token = 'reset:<tok>' AND is_valid = 1 AND device_info =
'password_reset'` joined with `users` on `user_id` with `is_active = 1`. -/
def fetchResetSession (s : DBState) (tok : String) : Option SessionRec :=
  s.sessions.find? (fun r =>
    r.refresh_token == .resetTok tok && r.is_valid &&
    r.device_info == some "password_reset" &&
    s.users.any (fun u => u.id == r.user_id && u.is_active))

/-- The verification-token lookup of `verify_email` (auth.py):
`refresh_token = 'verify:<tok>' AND is_valid = 1 AND device_info =
'email_verification'` joined with `users` on `user_id` (no active filter). -/
def fetchVerifySession (s : DBState) (tok : String) : Option SessionRec :=
  s.sessions.find? (fun r =>
    r.refresh_token == .verifyTok tok && r.is_valid &&
    r.device_info == some "email_verification" &&
    s.users.any (fun u => u.id == r.user_id))

def insertUser (s : DBState) (u : UserRec) : DBState :=
  { s with users := s.users ++ [u] }

def insertSession (s : DBState) (r : SessionRec) : DBState :=
  { s with sessions := s.sessions ++ [r] }

/-- `UPDATE user_sessions SET is_valid = 0 WHERE id = ?` -/
def invalidateSessionById (s : DBState) (i : Nat) : DBState :=
  { s with sessions := s.sessions.map (fun r =>
      if r.id == i then { r with is_valid := false } else r) }

/-- `UPDATE user_sessions SET is_valid = 0 WHERE user_id = ?` -/
def invalidateSessionsForUser (s : DBState) (uid : String) : DBState :=
  { s with sessions := s.sessions.map (fun r =>
      if r.user_id == uid then { r with is_valid := false } else r) }

/-- `UPDATE user_sessions SET is_valid = 0 WHERE user_id = ? AND
device_info != 'password_reset'` -/
def invalidateNonResetSessionsForUser (s : DBState) (uid : String) : DBState :=
  { s with sessions := s.sessions.map (fun r =>
      if r.user_id == uid && r.device_info != some "password_reset" then
        { r with is_valid := false }
      else r) }

/-- `UPDATE user_sessions SET is_valid = 0 WHERE user_id = ? AND
device_info = 'email_verification'` -/
def invalidateVerifySessionsForUser (s : DBState) (uid : String) : DBState :=
  { s with sessions := s.sessions.map (fun r =>
      if r.user_id == uid && r.device_info == some "email_verification" then
        { r with is_valid := false }
      else r) }

/-- `UPDATE users SET last_login_at = ? WHERE id = ?` -/
def setLastLogin (s : DBState) (uid : String) (now : Int) : DBState :=
  { s with users := s.users.map (fun u =>
      if u.id == uid then { u with last_login_at := some now } else u) }

/-- `UPDATE users SET password_hash = ?, updated_at = ? WHERE id = ?` -/
def setPasswordHash (s : DBState) (uid : String) (h : HashStr) (now : Int) :
    DBState :=
  { s with users := s.users.map (fun u =>
      if u.id == uid then { u with password_hash := h, updated_at := now }
      else u) }

/-- `UPDATE users SET email_verified = 1, updated_at = ? WHERE id = ?` -/
def setEmailVerified (s : DBState) (uid : String) (now : Int) : DBState :=
  { s with users := s.users.map (fun u =>
      if u.id == uid then { u with email_verified := true, updated_at := now }
      else u) }

/-- Valid PASSWORD_RESET records of a user: rows with
`device_info = 'password_reset'` and `is_valid = 1`. -/
def countValidResetRecords (s : DBState) (uid : String) : Nat :=
  (s.sessions.filter (fun r =>
    r.user_id == uid && r.device_info == some "password_reset" &&
    r.is_valid)).length

/-! ### Endpoints (backend/api/routes/auth.py)

Each handler takes its nondeterministic inputs (current time, generated uuids /
tokens / salts, client ip, the rate-limiter verdict for its ip-keyed bucket)
as explicit parameters and returns the HTTP-level outcome together with the
database state after the call. -/

structure UserRegisterInput where
  email : String
  phone : Option String
  password : String
  full_name : String
  role : String
deriving DecidableEq, Repr

inductive RegisterResult where
  | rateLimited
  | emailExists
  | phoneExists
  | weakPassword (msg : String)
  | created (tokens : TokenPair)
deriving DecidableEq, Repr

/-- `register` (auth.py): rate limit → email-uniqueness check (lowercased) →
phone-uniqueness check → strength validation → insert user (email lowercased)
→ mint token pair → insert the REFRESH session row.  The session row is
inserted with `expires_at = datetime.utcnow().isoformat()` — the creation
instant, with no lifetime added (modelled faithfully). -/
def register (s : DBState) (allowed : Bool) (user_data : UserRegisterInput)
    (client_ip : String) (now : Int) (user_id : String) (salt : String)
    (session_id : Nat) (jti : String) (secret_key : String) :
    RegisterResult × DBState :=
  if !allowed then (.rateLimited, s)
  else if (fetchUserByEmail s (pyLower user_data.email)).isSome then
    (.emailExists, s)
  else if (match user_data.phone with
           | some ph => ph != "" && (fetchUserByPhone s ph).isSome
           | none => false) then (.phoneExists, s)
  else
    match validate_password_strength user_data.password with
    | (false, msg) => (.weakPassword msg, s)
    | (true, _) =>
      let u : UserRec :=
        ⟨user_id, pyLower user_data.email, user_data.phone,
         hash_password user_data.password salt, user_data.full_name,
         user_data.role, true, false, now, now, none⟩
      let s1 := insertUser s u
      let tokens := create_token_pair user_id (pyLower user_data.email)
        user_data.role secret_key now jti
      let s2 := insertSession s1
        ⟨session_id, user_id, .jwtTok tokens.refresh_token, some client_ip,
         none, now, now, true⟩
      (.created tokens, s2)

inductive LoginResult where
  | rateLimited
  | invalidCredentials
  | serverError (e : String)
  | ok (tokens : TokenPair)
deriving DecidableEq, Repr

/-- `login` (auth.py): rate limit → active-user lookup by lowercased email →
password verification (`verify_password` propagates a library exception) →
update `last_login_at` → mint token pair → insert the REFRESH session row
(again with `expires_at` = the creation instant). -/
def login (s : DBState) (allowed : Bool) (email password : String)
    (client_ip : String) (now : Int) (session_id : Nat) (jti : String)
    (secret_key : String) : LoginResult × DBState :=
  if !allowed then (.rateLimited, s)
  else
    match fetchActiveUserByEmail s (pyLower email) with
    | none => (.invalidCredentials, s)
    | some user =>
      match verify_password password user.password_hash with
      | .error e => (.serverError e, s)
      | .ok false => (.invalidCredentials, s)
      | .ok true =>
        let s1 := setLastLogin s user.id now
        let tokens := create_token_pair user.id user.email user.role
          secret_key now jti
        let s2 := insertSession s1
          ⟨session_id, user.id, .jwtTok tokens.refresh_token, some client_ip,
           none, now, now, true⟩
        (.ok tokens, s2)

inductive RefreshResult where
  | invalidToken
  | sessionNotFound
  | userInactive
  | ok (tokens : TokenPair)
deriving DecidableEq, Repr

/-- `refresh_token` (auth.py): verify the refresh JWT → look up the session by
`refresh_token = ? AND is_valid = 1` (no `expires_at` condition) → invalidate
the old session → look up the active user → mint new pair → insert the new
session row.  Note the order: the old session is invalidated *before* the
user check. -/
def refresh_token_route (s : DBState) (presented : StoredSecret)
    (client_ip : String) (now : Int) (session_id : Nat) (jti : String)
    (secret_key : String) : RefreshResult × DBState :=
  match verify_token presented "refresh" secret_key now with
  | none => (.invalidToken, s)
  | some token_data =>
    match fetchValidSessionBySecret s presented with
    | none => (.sessionNotFound, s)
    | some session =>
      let s1 := invalidateSessionById s session.id
      match fetchActiveUserById s1 token_data.user_id with
      | none => (.userInactive, s1)
      | some user =>
        let tokens := create_token_pair user.id user.email user.role
          secret_key now jti
        let s2 := insertSession s1
          ⟨session_id, user.id, .jwtTok tokens.refresh_token, some client_ip,
           none, now, now, true⟩
        (.ok tokens, s2)

/-- `AuthService._create_session` (auth_service.py): inserts the session row
with `expires_at = utcnow() + timedelta(days=REFRESH_TOKEN_EXPIRE_DAYS)`. -/
def _create_session (s : DBState) (user_id : String)
    (refresh_tok : StoredSecret) (ip_address : Option String) (now : Int)
    (session_id : Nat) : DBState :=
  insertSession s
    ⟨session_id, user_id, refresh_tok, ip_address, none,
     now + REFRESH_TOKEN_EXPIRE_DAYS * 86400, now, true⟩

/-- `AuthService.refresh_tokens` (auth_service.py): same flow as the route but
the user check precedes the invalidation of the old session. -/
def refresh_tokens_service (s : DBState) (presented : StoredSecret)
    (now : Int) (session_id : Nat) (jti : String) (secret_key : String) :
    RefreshResult × DBState :=
  match verify_token presented "refresh" secret_key now with
  | none => (.invalidToken, s)
  | some token_data =>
    match fetchValidSessionBySecret s presented with
    | none => (.sessionNotFound, s)
    | some session =>
      match fetchActiveUserById s token_data.user_id with
      | none => (.userInactive, s)
      | some user =>
        let s1 := invalidateSessionById s session.id
        let tokens := create_token_pair user.id user.email user.role
          secret_key now jti
        let s2 := _create_session s1 user.id (.jwtTok tokens.refresh_token)
          none now session_id
        (.ok tokens, s2)

structure ForgotPasswordResponse where
  message : String
  email : String
deriving DecidableEq, Repr

inductive ForgotResult where
  | rateLimited
  | ok (resp : ForgotPasswordResponse)
deriving DecidableEq, Repr

/-- `forgot_password` (auth.py): rate limit → active-user lookup by lowercased
email.  Whether or not the user exists, the handler returns the same success
message, echoing the *caller-supplied* email string; when the user exists it
additionally inserts a PASSWORD_RESET row (`device_info = 'password_reset'`,
`expires_at = now + 1 hour`) — without invalidating any prior reset rows.
(`ForgotPasswordResponse` is referenced by the route but absent from
models/schemas.py; it is modelled from its construction sites as a record of
its two fields.) -/
def forgot_password_message : String :=
  "If this email exists, a password reset link will be sent."

def forgot_password (s : DBState) (allowed : Bool) (email : String)
    (now : Int) (token_id : Nat) (reset_token : String) :
    ForgotResult × DBState :=
  if !allowed then (.rateLimited, s)
  else
    match fetchActiveUserByEmail s (pyLower email) with
    | none => (.ok ⟨forgot_password_message, email⟩, s)
    | some user =>
      let s1 := insertSession s
        ⟨token_id, user.id, .resetTok reset_token, none,
         some "password_reset", now + 3600, now, true⟩
      (.ok ⟨forgot_password_message, email⟩, s1)

/-- `AuthService.initiate_password_reset` (auth_service.py): identical storage
behaviour to the route (insert a reset row, no invalidation of prior ones);
returns `(True, token)` or `(True, "")` when the user does not exist. -/
def initiate_password_reset (s : DBState) (email : String) (now : Int)
    (token_id : Nat) (reset_token : String) : (Bool × String) × DBState :=
  match fetchActiveUserByEmail s (pyLower email) with
  | none => ((true, ""), s)
  | some user =>
    ((true, reset_token),
     insertSession s
       ⟨token_id, user.id, .resetTok reset_token, none,
        some "password_reset", now + 3600, now, true⟩)

inductive ResetResult where
  | rateLimited
  | missingFields
  | tooShort
  | invalidToken
  | expiredToken
  | weakPassword (msg : String)
  | ok
deriving DecidableEq, Repr

/-- `reset_password` (auth.py): rate limit → presence check (Python
truthiness: a missing or empty token / password is rejected) → minimum length
→ reset-row lookup → expiry check (`utcnow() > expires_at` lazily invalidates
the row) → strength validation → update the password hash → invalidate the
reset row → invalidate every other session of the user. -/
def reset_password (s : DBState) (allowed : Bool) (token : Option String)
    (new_password : Option String) (now : Int) (salt : String) :
    ResetResult × DBState :=
  if !allowed then (.rateLimited, s)
  else
    match token, new_password with
    | some tok, some np =>
      if tok == "" || np == "" then (.missingFields, s)
      else if np.length < 8 then (.tooShort, s)
      else
        match fetchResetSession s tok with
        | none => (.invalidToken, s)
        | some session =>
          if session.expires_at < now then
            (.expiredToken, invalidateSessionById s session.id)
          else
            match validate_password_strength np with
            | (false, msg) => (.weakPassword msg, s)
            | (true, _) =>
              let s1 := setPasswordHash s session.user_id
                (hash_password np salt) now
              let s2 := invalidateSessionById s1 session.id
              let s3 := invalidateNonResetSessionsForUser s2 session.user_id
              (.ok, s3)
    | _, _ => (.missingFields, s)

inductive VerifyResult where
  | invalidToken
  | expiredToken
  | ok
deriving DecidableEq, Repr

/-- `verify_email` (auth.py): verification-row lookup → expiry check
(`utcnow() > expires_at` lazily invalidates the row) → set
`email_verified` → invalidate the row. -/
def verify_email (s : DBState) (token : String) (now : Int) :
    VerifyResult × DBState :=
  match fetchVerifySession s token with
  | none => (.invalidToken, s)
  | some session =>
    if session.expires_at < now then
      (.expiredToken, invalidateSessionById s session.id)
    else
      let s1 := setEmailVerified s session.user_id now
      let s2 := invalidateSessionById s1 session.id
      (.ok, s2)

inductive ResendResult where
  | rateLimited
  | alreadyVerified
  | sent
deriving DecidableEq, Repr

/-- `resend_verification` (auth.py): rate limit → no-op if already verified →
invalidate the user's prior EMAIL_VERIFICATION rows → insert a fresh one with
`expires_at = now + 24 hours`. -/
def resend_verification (s : DBState) (allowed : Bool)
    (current_user : UserRec) (now : Int) (token_id : Nat)
    (verify_tok : String) : ResendResult × DBState :=
  if !allowed then (.rateLimited, s)
  else if current_user.email_verified then (.alreadyVerified, s)
  else
    let s1 := invalidateVerifySessionsForUser s current_user.id
    let s2 := insertSession s1
      ⟨token_id, current_user.id, .verifyTok verify_tok, none,
       some "email_verification", now + 86400, now, true⟩
    (.sent, s2)

/-! ### Concrete fixtures used by the claim theorems and witnesses -/

def c1User : UserRec :=
  ⟨"u1", "a@x.com", none, .bcrypt "s" "Abcd123!", "A", "farmer", true, false,
   0, 0, none⟩

def c1State0 : DBState := ⟨[c1User], []⟩

def c1State1 : DBState := (forgot_password c1State0 true "a@x.com" 0 1 "tokA").2

def c1State2 : DBState := (forgot_password c1State1 true "a@x.com" 10 2 "tokB").2

def c2Jwt : Jwt :=
  ⟨⟨"u1", "a@x.com", "farmer", 604800, 0, "refresh", some "j0"⟩, "KEY"⟩

def c2User : UserRec :=
  ⟨"u1", "a@x.com", none, .bcrypt "s" "Abcd123!", "A", "farmer", true, false,
   0, 0, none⟩

def c2State : DBState :=
  ⟨[c2User], [⟨0, "u1", .jwtTok c2Jwt, none, none, 0, 0, true⟩]⟩

def c2Pair : TokenPair := create_token_pair "u1" "a@x.com" "farmer" "KEY" 1 "j1"

def c2State2 : DBState :=
  (refresh_token_route c2State (.jwtTok c2Jwt) "ip" 1 9 "j1" "KEY").2

def c3Jwt : Jwt :=
  ⟨⟨"u1", "a@x.com", "farmer", 604800, 0, "refresh", some "j0"⟩, "KEY"⟩

def c3User : UserRec :=
  ⟨"u1", "a@x.com", none, .bcrypt "s" "Abcd123!", "A", "farmer", true, false,
   0, 0, none⟩

/-- A state whose only REFRESH ledger record is past its `expires_at` (50)
while the refresh JWT itself is still unexpired. -/
def c3State : DBState :=
  ⟨[c3User], [⟨0, "u1", .jwtTok c3Jwt, none, none, 50, 0, true⟩]⟩

def c3Sess : SessionRec :=
  ⟨0, "u1", .resetTok "rt", none, some "password_reset", 50, 0, true⟩

def c3ResetState : DBState := ⟨[c3User], [c3Sess]⟩

def c3VSess : SessionRec :=
  ⟨0, "u1", .verifyTok "vt", none, some "email_verification", 50, 0, true⟩

def c3VerifyState : DBState := ⟨[c3User], [c3VSess]⟩

def c3Td : TokenData := ⟨"u1", some "a@x.com", "farmer", "refresh", 604800⟩

def c4Input : UserRegisterInput := ⟨"b@x.com", none, "Abcd123!", "B", "farmer"⟩

def c4User : UserRec :=
  ⟨"u1", "a@x.com", none, .bcrypt "s" "Abcd123!", "A", "farmer", true, false,
   0, 0, none⟩

def c4State : DBState := ⟨[c4User], []⟩

def c5Jwt : Jwt :=
  ⟨⟨"u1", "a@x.com", "farmer", 604800, 0, "refresh", some "j0"⟩, "KEY"⟩

/-- A deactivated user (`is_active = 0`) who still holds a valid REFRESH
ledger record. -/
def c5User : UserRec :=
  ⟨"u1", "a@x.com", none, .bcrypt "s" "Abcd123!", "A", "farmer", false, false,
   0, 0, none⟩

def c5State : DBState :=
  ⟨[c5User], [⟨0, "u1", .jwtTok c5Jwt, none, none, 604800, 0, true⟩]⟩

def c8User : UserRec :=
  ⟨"u1", "real@x.com", none, .bcrypt "s" "Abcd123!", "R", "farmer", true,
   false, 0, 0, none⟩

def c8StateYes : DBState := ⟨[c8User], []⟩

def c8StateNo : DBState := ⟨[], []⟩

/-! ## Theorems

Helper lemmas first, then one theorem per claim (with a witness where the
theorem carries hypotheses). -/

theorem char_toLower_idem (c : Char) : c.toLower.toLower = c.toLower := by
  have hdef : ∀ d : Char, d.toLower =
      if d.toNat ≥ 65 ∧ d.toNat ≤ 90 then Char.ofNat (d.toNat + 32) else d :=
    fun _ => rfl
  by_cases h : c.toNat ≥ 65 ∧ c.toNat ≤ 90
  · have hv : Nat.isValidChar (c.toNat + 32) := Or.inl (by omega)
    have ht : (Char.ofNat (c.toNat + 32)).toNat = c.toNat + 32 := by
      unfold Char.ofNat
      rw [dif_pos hv]
      rfl
    rw [hdef c, if_pos h, hdef, ht, if_neg (by omega)]
  · rw [hdef c, if_neg h, hdef c, if_neg h]

theorem pyLower_idem (s : String) : pyLower (pyLower s) = pyLower s := by
  simp [pyLower, List.map_map, Function.comp_def, char_toLower_idem]

/-- C1 counterexample: two consecutive `forgot-password` calls for the same
user leave TWO valid PASSWORD_RESET ledger records for that user — the claimed
at-most-one invariant is violated because the handler never invalidates prior
reset records. -/
theorem c1_counterexample :
    countValidResetRecords c1State2 "u1" = 2 ∧
    ¬ countValidResetRecords c1State2 "u1" ≤ 1 := by decide

/-- C1 (amended): `forgot-password` (and `AuthService.initiate_password_reset`)
appends a fresh valid PASSWORD_RESET record for an existing active user
without touching any prior record, so the number of valid PASSWORD_RESET
records for that user grows by one per call — there is no at-most-one-valid
invariant for PASSWORD_RESET. -/
theorem c1_forgot_password_accumulates (s : DBState) (email : String)
    (u : UserRec) (now : Int) (token_id : Nat) (reset_token : String)
    (h : fetchActiveUserByEmail s (pyLower email) = some u) :
    (forgot_password s true email now token_id reset_token).2.sessions
      = s.sessions ++
        [⟨token_id, u.id, .resetTok reset_token, none, some "password_reset",
          now + 3600, now, true⟩] ∧
    countValidResetRecords
        (forgot_password s true email now token_id reset_token).2 u.id
      = countValidResetRecords s u.id + 1 ∧
    (initiate_password_reset s email now token_id reset_token).2.sessions
      = s.sessions ++
        [⟨token_id, u.id, .resetTok reset_token, none, some "password_reset",
          now + 3600, now, true⟩] := by
  refine ⟨?_, ?_, ?_⟩
  · simp [forgot_password, h, insertSession]
  · simp [forgot_password, h, insertSession, countValidResetRecords,
          List.filter_append]
  · simp [initiate_password_reset, h, insertSession]

theorem c1_forgot_password_accumulates_witness :
    (forgot_password c1State0 true "a@x.com" 0 1 "tokA").2.sessions
      = c1State0.sessions ++
        [⟨1, c1User.id, .resetTok "tokA", none, some "password_reset",
          (0 : Int) + 3600, 0, true⟩] :=
  (c1_forgot_password_accumulates c1State0 "a@x.com" c1User 0 1 "tokA"
    (by decide)).1

/-- C4: the routes (`register`, and identically `login`/`refresh`) insert the
REFRESH session row with `expires_at = datetime.utcnow()` — the creation
instant, not creation + 7 days as the spec states; `AuthService._create_session`
does add the configured 7 days, showing the intent.  PASSWORD_RESET (+1 hour)
and EMAIL_VERIFICATION (+24 hours) match the claim. -/
theorem c4_refresh_lifetime_bug :
    ((register ⟨[], []⟩ true c4Input "ip" 1000 "u9" "salt" 7 "jt" "KEY").2.sessions.map
        SessionRec.expires_at = [1000]) ∧
    ((login c4State true "a@x.com" "Abcd123!" "ip" 1000 8 "jt" "KEY").2.sessions.map
        SessionRec.expires_at = [1000]) ∧
    (1000 + REFRESH_TOKEN_EXPIRE_DAYS * 86400 = 605800) ∧
    ((_create_session ⟨[], []⟩ "u9" (.resetTok "t") none 1000 7).sessions.map
        SessionRec.expires_at = [605800]) ∧
    ((forgot_password c4State true "a@x.com" 1000 3 "rt").2.sessions.map
        SessionRec.expires_at = [1000 + 3600]) ∧
    ((resend_verification c4State true c4User 1000 4 "vt").2.sessions.map
        SessionRec.expires_at = [1000 + 86400]) := by decide

/-- C5: a refresh call that locates the session but then fails the user check
(deactivated user) leaves the old REFRESH record invalidated with no
replacement — the route invalidates before the user lookup, so the failure is
not atomic; `AuthService.refresh_tokens` on the same state leaves the ledger
unchanged, matching the claimed behaviour. -/
theorem c5_refresh_not_atomic_on_failure :
    refresh_token_route c5State (.jwtTok c5Jwt) "ip" 1 9 "j1" "KEY"
      = (.userInactive, invalidateSessionById c5State 0) ∧
    ((invalidateSessionById c5State 0).sessions.map SessionRec.is_valid
      = [false]) ∧
    refresh_tokens_service c5State (.jwtTok c5Jwt) 1 9 "j1" "KEY"
      = (.userInactive, c5State) := by decide

/-- C7 counterexample: `verify_password` forwards `pwd_context.verify`
unguarded, so on a malformed hash it propagates the library's
`UnknownHashError` instead of returning `false`. -/
theorem c7_counterexample :
    verify_password "anything" (.malformed "not-a-hash")
      = .error "UnknownHashError" ∧
    (∀ b : Bool,
      verify_password "anything" (.malformed "not-a-hash") ≠ .ok b) :=
  ⟨rfl, fun _ h => Except.noConfusion h⟩

/-- C7 (amended): `verify_password` returns a boolean for every well-formed
bcrypt hash, and on any malformed hash it raises (propagates passlib's
`UnknownHashError`) rather than returning `false`. -/
theorem c7_verify_password_behaviour (plain salt pw m : String) :
    verify_password plain (.bcrypt salt pw) = .ok (plain == pw) ∧
    verify_password plain (.malformed m) = .error "UnknownHashError" :=
  ⟨rfl, rfl⟩

/-- C8: a non-rate-limited `forgot-password` call always returns the one
fixed success response (echoing the submitted email), whether or not an
active user with that email exists; and it inserts a PASSWORD_RESET ledger
record exactly when such a user exists (state untouched otherwise). -/
theorem c8_forgot_password_enum_resistant (s : DBState) (email : String)
    (now : Int) (token_id : Nat) (reset_token : String) :
    ((forgot_password s true email now token_id reset_token).1
      = .ok ⟨forgot_password_message, email⟩) ∧
    (fetchActiveUserByEmail s (pyLower email) = none →
      (forgot_password s true email now token_id reset_token).2 = s) ∧
    (∀ u : UserRec, fetchActiveUserByEmail s (pyLower email) = some u →
      (forgot_password s true email now token_id reset_token).2
        = insertSession s ⟨token_id, u.id, .resetTok reset_token, none,
            some "password_reset", now + 3600, now, true⟩) := by
  refine ⟨?_, ?_, ?_⟩
  · unfold forgot_password
    cases h : fetchActiveUserByEmail s (pyLower email) <;> simp [h]
  · intro h
    simp [forgot_password, h]
  · intro u h
    simp [forgot_password, h]

theorem c8_forgot_password_enum_resistant_witness :
    ((forgot_password c8StateNo true "nobody@x.com" 0 1 "t").1
      = .ok ⟨forgot_password_message, "nobody@x.com"⟩) ∧
    ((forgot_password c8StateNo true "nobody@x.com" 0 1 "t").2 = c8StateNo) ∧
    ((forgot_password c8StateYes true "real@x.com" 0 1 "t").1
      = .ok ⟨forgot_password_message, "real@x.com"⟩) ∧
    ((forgot_password c8StateYes true "real@x.com" 0 1 "t").2
      = insertSession c8StateYes
          ⟨1, c8User.id, .resetTok "t", none, some "password_reset",
           (0 : Int) + 3600, 0, true⟩) :=
  ⟨(c8_forgot_password_enum_resistant c8StateNo "nobody@x.com" 0 1 "t").1,
   (c8_forgot_password_enum_resistant c8StateNo "nobody@x.com" 0 1 "t").2.1
     (by decide),
   (c8_forgot_password_enum_resistant c8StateYes "real@x.com" 0 1 "t").1,
   (c8_forgot_password_enum_resistant c8StateYes "real@x.com" 0 1 "t").2.2
     c8User (by decide)⟩

/-- C9: verifying the access token of `create_token_pair(id, email, role)` with
expected type `"access"` at any time up to its expiry succeeds with claims
carrying exactly that id, email and role; verifying the same token with
expected type `"refresh"` fails.  (`user_id ≠ ""` because `payload.get("sub")
or payload.get("user_id")` treats an empty `sub` as falsy; every user id in
this system is a generated uuid.) -/
theorem c9_token_roundtrip (user_id email role secret_key jti : String)
    (now t : Int) (hid : user_id ≠ "")
    (hbefore : t ≤ now + ACCESS_TOKEN_EXPIRE_MINUTES * 60) :
    verify_token
        (.jwtTok (create_token_pair user_id email role secret_key now
          jti).access_token) "access" secret_key t
      = some ⟨user_id, some email, role, "access",
              now + ACCESS_TOKEN_EXPIRE_MINUTES * 60⟩ ∧
    verify_token
        (.jwtTok (create_token_pair user_id email role secret_key now
          jti).access_token) "refresh" secret_key t
      = none := by
  constructor
  · simp [verify_token, create_token_pair, create_access_token, decode_token,
          hbefore, hid]
  · simp [verify_token, create_token_pair, create_access_token, decode_token,
          hbefore]

theorem c9_token_roundtrip_witness :
    verify_token
        (.jwtTok (create_token_pair "u1" "a@x.com" "farmer" "KEY" 0
          "j").access_token) "access" "KEY" 5
      = some ⟨"u1", some "a@x.com", "farmer", "access",
              (0 : Int) + ACCESS_TOKEN_EXPIRE_MINUTES * 60⟩ ∧
    verify_token
        (.jwtTok (create_token_pair "u1" "a@x.com" "farmer" "KEY" 0
          "j").access_token) "refresh" "KEY" 5
      = none :=
  c9_token_roundtrip "u1" "a@x.com" "farmer" "KEY" "j" 0 5 (by decide)
    (by decide)

/-- C10 counterexample: `forgot_password("A@x.com")` and
`forgot_password("a@x.com")` return different responses — the handler echoes
the caller-supplied email verbatim in the response's `email` field, so the two
calls do not behave identically. -/
theorem c10_counterexample :
    (forgot_password (⟨[], []⟩ : DBState) true "A@x.com" 0 1 "t").1
      ≠ (forgot_password (⟨[], []⟩ : DBState) true "a@x.com" 0 1 "t").1 := by
  decide

/-- C10 (amended): registration stores the email lowercased; `login(E, p)` is
fully identical to `login(lowercase(E), p)`; `forgot_password(E)` and
`forgot_password(lowercase(E))` produce the same database effect and the same
message, but the response's `email` field echoes the argument verbatim (so the
full responses differ when `E` is not already lowercase). -/
theorem c10_email_case_insensitivity :
    (∀ (s : DBState) (allowed : Bool) (inp : UserRegisterInput) (ip : String)
       (now : Int) (uid salt : String) (sid : Nat) (jti key : String),
       (register s allowed inp ip now uid salt sid jti key).2.users = s.users ∨
       ∃ u : UserRec,
         (register s allowed inp ip now uid salt sid jti key).2.users
           = s.users ++ [u] ∧ u.email = pyLower inp.email) ∧
    (∀ (s : DBState) (allowed : Bool) (email password ip : String)
       (now : Int) (sid : Nat) (jti key : String),
       login s allowed email password ip now sid jti key
         = login s allowed (pyLower email) password ip now sid jti key) ∧
    (∀ (s : DBState) (email : String) (now : Int) (tid : Nat) (rt : String),
       (forgot_password s true email now tid rt).2
         = (forgot_password s true (pyLower email) now tid rt).2 ∧
       (forgot_password s true email now tid rt).1
         = .ok ⟨forgot_password_message, email⟩ ∧
       (forgot_password s true (pyLower email) now tid rt).1
         = .ok ⟨forgot_password_message, pyLower email⟩) := by
  refine ⟨?_, ?_, ?_⟩
  · intro s allowed inp ip now uid salt sid jti key
    unfold register
    split
    · exact Or.inl rfl
    · split
      · exact Or.inl rfl
      · split
        · exact Or.inl rfl
        · split
          · exact Or.inl rfl
          · exact Or.inr ⟨⟨uid, pyLower inp.email, inp.phone,
              hash_password inp.password salt, inp.full_name, inp.role, true,
              false, now, now, none⟩,
              by simp [insertSession, insertUser], rfl⟩
  · intro s allowed email password ip now sid jti key
    simp only [login, pyLower_idem]
  · intro s email now tid rt
    refine ⟨?_, ?_, ?_⟩
    · unfold forgot_password
      rw [pyLower_idem]
      cases h : fetchActiveUserByEmail s (pyLower email) <;> simp [h]
    · unfold forgot_password
      cases h : fetchActiveUserByEmail s (pyLower email) <;> simp [h]
    · unfold forgot_password
      rw [pyLower_idem]
      cases h : fetchActiveUserByEmail s (pyLower email) <;> simp [h]

/-- C3 counterexample: the refresh-session lookup checks only
`is_valid = 1` and never consults `expires_at`, so a refresh call presenting a
secret whose ledger record is past `expires_at` (here `expires_at = 50`, call
at `now = 100`) SUCCEEDS instead of failing with lazy expiry as claimed. -/
theorem c3_counterexample :
    (c3State.sessions.map SessionRec.expires_at = [50]) ∧
    (refresh_token_route c3State (.jwtTok c3Jwt) "ip" 100 1 "j1" "KEY").1
      = .ok (create_token_pair "u1" "a@x.com" "farmer" "KEY" 100 "j1") := by
  decide

/-- C3 (amended): the password-reset and email-verification lookups apply lazy
expiry — a row found valid but past `expires_at` is invalidated as a side
effect and the call reports an expired/invalid token; the refresh-session
lookup, by contrast, checks only `valid = true` and ignores `expires_at`, so a
refresh call presenting a secret whose ledger record is past `expires_at` can
still succeed (the JWT's own `exp` is the only time bound on refresh). -/
theorem c3_lazy_expiry :
    (∀ (s : DBState) (tok np : String) (now : Int) (salt : String)
       (sess : SessionRec),
       tok ≠ "" → np ≠ "" → ¬ np.length < 8 →
       fetchResetSession s tok = some sess → sess.expires_at < now →
       reset_password s true (some tok) (some np) now salt
         = (.expiredToken, invalidateSessionById s sess.id) ∧
       ∀ r ∈ (invalidateSessionById s sess.id).sessions,
         r.id = sess.id → r.is_valid = false) ∧
    (∀ (s : DBState) (tok : String) (now : Int) (sess : SessionRec),
       fetchVerifySession s tok = some sess → sess.expires_at < now →
       verify_email s tok now
         = (.expiredToken, invalidateSessionById s sess.id)) ∧
    (∀ (s : DBState) (presented : StoredSecret) (ip : String) (now : Int)
       (sid : Nat) (jti key : String) (td : TokenData) (sess : SessionRec)
       (user : UserRec),
       verify_token presented "refresh" key now = some td →
       fetchValidSessionBySecret s presented = some sess →
       fetchActiveUserById (invalidateSessionById s sess.id) td.user_id
         = some user →
       refresh_token_route s presented ip now sid jti key
         = (.ok (create_token_pair user.id user.email user.role key now jti),
            insertSession (invalidateSessionById s sess.id)
              ⟨sid, user.id,
               .jwtTok (create_token_pair user.id user.email user.role key
                 now jti).refresh_token, some ip, none, now, now, true⟩)) := by
  refine ⟨?_, ?_, ?_⟩
  · intro s tok np now salt sess htok hnp hlen hfind hexp
    constructor
    · simp [reset_password, htok, hnp, hlen, hfind, hexp]
    · intro r hr hid
      simp only [invalidateSessionById, List.mem_map] at hr
      obtain ⟨r0, _, hr0⟩ := hr
      by_cases h0 : (r0.id == sess.id) = true
      · rw [if_pos h0] at hr0
        subst hr0
        rfl
      · rw [if_neg h0] at hr0
        subst hr0
        exact absurd (by simpa using hid) (by simpa using h0)
  · intro s tok now sess hfind hexp
    simp [verify_email, hfind, hexp]
  · intro s presented ip now sid jti key td sess user hv hfind huser
    simp [refresh_token_route, hv, hfind, huser]

theorem c3_lazy_expiry_witness :
    reset_password c3ResetState true (some "rt") (some "Abcd123!") 100 "salt"
      = (.expiredToken, invalidateSessionById c3ResetState 0) ∧
    verify_email c3VerifyState "vt" 100
      = (.expiredToken, invalidateSessionById c3VerifyState 0) ∧
    refresh_token_route c3State (.jwtTok c3Jwt) "ip" 100 1 "j1" "KEY"
      = (.ok (create_token_pair "u1" "a@x.com" "farmer" "KEY" 100 "j1"),
         insertSession (invalidateSessionById c3State 0)
           ⟨1, "u1",
            .jwtTok (create_token_pair "u1" "a@x.com" "farmer" "KEY" 100
              "j1").refresh_token, some "ip", none, 100, 100, true⟩) :=
  ⟨(c3_lazy_expiry.1 c3ResetState "rt" "Abcd123!" 100 "salt" c3Sess
      (by decide) (by decide) (by decide) (by decide) (by decide)).1,
   c3_lazy_expiry.2.1 c3VerifyState "vt" 100 c3VSess (by decide) (by decide),
   c3_lazy_expiry.2.2 c3State (.jwtTok c3Jwt) "ip" 100 1 "j1" "KEY" c3Td
     ⟨0, "u1", .jwtTok c3Jwt, none, none, 50, 0, true⟩ c3User (by decide)
     (by decide) (by decide)⟩

/-- C6: `is_allowed` is an exact sliding window.  For every key and call:
the surviving timestamps are exactly those still inside the window, the call
is admitted iff the surviving count is below the limit, a rejected call
records nothing, an admitted call records `now`, and other keys are
untouched.  Consequently with limit 5 and window 3600 a fixed key gets
exactly five admissions inside a rolling window: five monotone calls within
3600 s are admitted, a sixth inside the window is rejected without being
recorded, and a later call is admitted again exactly because the oldest
recorded timestamp has aged out of the window. -/
theorem c6_rate_limiter_sliding_window :
    (∀ (rl : RateLimiter) (key : String) (maxReq : Nat) (window now : Int),
       ((rl.is_allowed key maxReq window now).2.requests key
          = if maxReq ≤ ((rl.requests key).filter
                (fun t => decide (now - window < t))).length
            then (rl.requests key).filter (fun t => decide (now - window < t))
            else (rl.requests key).filter
                   (fun t => decide (now - window < t)) ++ [now]) ∧
       ((rl.is_allowed key maxReq window now).1.1
          = decide (((rl.requests key).filter
              (fun t => decide (now - window < t))).length < maxReq)) ∧
       (∀ k2, k2 ≠ key →
          (rl.is_allowed key maxReq window now).2.requests k2
            = rl.requests k2)) ∧
    (∀ (key : String) (t1 t2 t3 t4 t5 t6 t7 : Int),
       t1 ≤ t2 → t2 ≤ t3 → t3 ≤ t4 → t4 ≤ t5 → t5 ≤ t6 →
       t6 - t1 < 3600 → t6 ≤ t7 → t1 + 3600 ≤ t7 → t7 - t2 < 3600 →
       (runCalls ⟨fun _ => []⟩ key 5 3600 [t1, t2, t3, t4, t5, t6, t7]).1
         = [true, true, true, true, true, false, true]) := by
  constructor
  · intro rl key maxReq window now
    simp only [RateLimiter.is_allowed, is_allowed_list]
    split
    · next h =>
      exact ⟨by simp [Function.update_same, h],
             by simp [decide_eq_false (by omega : ¬ ((rl.requests key).filter
               (fun t => decide (now - window < t))).length < maxReq)],
             fun k2 hk2 => by simp [Function.update_noteq hk2]⟩
    · next h =>
      exact ⟨by simp [Function.update_same, h],
             by simp [decide_eq_true (by omega : ((rl.requests key).filter
               (fun t => decide (now - window < t))).length < maxReq)],
             fun k2 hk2 => by simp [Function.update_noteq hk2]⟩
  · intro key t1 t2 t3 t4 t5 t6 t7 h12 h23 h34 h45 h56 hwin h67 hage hkeep
    have k21 : t2 - 3600 < t1 := by omega
    have k31 : t3 - 3600 < t1 := by omega
    have k32 : t3 - 3600 < t2 := by omega
    have k41 : t4 - 3600 < t1 := by omega
    have k42 : t4 - 3600 < t2 := by omega
    have k43 : t4 - 3600 < t3 := by omega
    have k51 : t5 - 3600 < t1 := by omega
    have k52 : t5 - 3600 < t2 := by omega
    have k53 : t5 - 3600 < t3 := by omega
    have k54 : t5 - 3600 < t4 := by omega
    have k61 : t6 - 3600 < t1 := by omega
    have k62 : t6 - 3600 < t2 := by omega
    have k63 : t6 - 3600 < t3 := by omega
    have k64 : t6 - 3600 < t4 := by omega
    have k65 : t6 - 3600 < t5 := by omega
    have k71 : ¬ t7 - 3600 < t1 := by omega
    have k72 : t7 - 3600 < t2 := by omega
    have k73 : t7 - 3600 < t3 := by omega
    have k74 : t7 - 3600 < t4 := by omega
    have k75 : t7 - 3600 < t5 := by omega
    simp [runCalls, RateLimiter.is_allowed, is_allowed_list,
          Function.update_same, k21, k31, k32, k41, k42, k43, k51, k52, k53,
          k54, k61, k62, k63, k64, k65, k71, k72, k73, k74, k75]

theorem c6_rate_limiter_witness :
    ((runCalls ⟨fun _ => []⟩ "login:203.0.113.5" 5 3600
        [0, 1, 2, 3, 4, 5, 3600]).1
      = [true, true, true, true, true, false, true]) ∧
    (((⟨fun _ => []⟩ : RateLimiter).is_allowed "login:203.0.113.5" 5 3600
        0).2.requests "register:203.0.113.5" = []) :=
  ⟨c6_rate_limiter_sliding_window.2 "login:203.0.113.5" 0 1 2 3 4 5 3600
     (by decide) (by decide) (by decide) (by decide) (by decide) (by decide)
     (by decide) (by decide) (by decide),
   (c6_rate_limiter_sliding_window.1 ⟨fun _ => []⟩ "login:203.0.113.5" 5 3600
     0).2.2 "register:203.0.113.5" (by decide)⟩

/-- C2: refresh tokens are single-use.  If a refresh call succeeds on secret
`presented`, then in the resulting state every ledger record holding that
secret is invalid, a valid record holding the new refresh secret exists (so
the old and the new record are never both valid), and any subsequent refresh
call presenting the old secret (while it still passes the cryptographic
check) fails with the session-not-found error and leaves the state unchanged.
Hypotheses: the ledger holds at most one record per secret (secrets are
freshly generated JWTs), and the `jti` minted for the new token is fresh. -/
theorem c2_refresh_single_use
    (s : DBState) (presented : StoredSecret) (client_ip : String) (now : Int)
    (session_id : Nat) (jti : String) (secret_key : String)
    (pair : TokenPair) (s2 : DBState)
    (hsucc : refresh_token_route s presented client_ip now session_id jti
               secret_key = (.ok pair, s2))
    (huniq : ∀ r1 ∈ s.sessions, ∀ r2 ∈ s.sessions,
       r1.refresh_token = presented → r2.refresh_token = presented → r1 = r2)
    (hfresh : ∀ j : Jwt, presented = .jwtTok j → j.claims.jti ≠ some jti) :
    (∀ r ∈ s2.sessions, r.refresh_token = presented → r.is_valid = false) ∧
    (∃ r ∈ s2.sessions,
       r.refresh_token = .jwtTok pair.refresh_token ∧ r.is_valid = true) ∧
    (∀ (now2 : Int) (sid2 : Nat) (jti2 ip2 : String),
       verify_token presented "refresh" secret_key now2 ≠ none →
       refresh_token_route s2 presented ip2 now2 sid2 jti2 secret_key
         = (.sessionNotFound, s2)) := by
  unfold refresh_token_route at hsucc
  cases hv : verify_token presented "refresh" secret_key now with
  | none => rw [hv] at hsucc; simp at hsucc
  | some td =>
  rw [hv] at hsucc
  cases hfind : fetchValidSessionBySecret s presented with
  | none => rw [hfind] at hsucc; simp at hsucc
  | some sess =>
  rw [hfind] at hsucc
  dsimp only at hsucc
  cases huser : fetchActiveUserById (invalidateSessionById s sess.id)
      td.user_id with
  | none => rw [huser] at hsucc; simp at hsucc
  | some user =>
  rw [huser] at hsucc
  dsimp only at hsucc
  simp only [Prod.mk.injEq, RefreshResult.ok.injEq] at hsucc
  obtain ⟨hpair, hs2⟩ := hsucc
  have hsessmem : sess ∈ s.sessions := by
    unfold fetchValidSessionBySecret at hfind
    exact List.mem_of_find?_eq_some hfind
  have hsesssec : sess.refresh_token = presented := by
    unfold fetchValidSessionBySecret at hfind
    have h := List.find?_some hfind
    rw [Bool.and_eq_true, beq_iff_eq] at h
    exact h.1
  subst hs2
  have hinv : ∀ r ∈ (insertSession (invalidateSessionById s sess.id)
      ⟨session_id, user.id,
       .jwtTok (create_token_pair user.id user.email user.role secret_key now
         jti).refresh_token, some client_ip, none, now, now, true⟩).sessions,
      r.refresh_token = presented → r.is_valid = false := by
    intro r hr hrt
    simp only [insertSession, invalidateSessionById] at hr
    rcases List.mem_append.mp hr with hmem | hnew
    · obtain ⟨r0, hr0mem, hfr⟩ := List.mem_map.mp hmem
      by_cases hid : (r0.id == sess.id) = true
      · rw [if_pos hid] at hfr
        rw [← hfr]
      · rw [if_neg hid] at hfr
        have hr0 : r0 = sess := by
          apply huniq r0 hr0mem sess hsessmem _ hsesssec
          rw [hfr]
          exact hrt
        rw [hr0] at hid
        simp at hid
    · rw [List.mem_singleton.mp hnew] at hrt
      exact absurd rfl (hfresh _ hrt.symm)
  refine ⟨hinv, ?_, ?_⟩
  · refine ⟨⟨session_id, user.id,
      .jwtTok (create_token_pair user.id user.email user.role secret_key now
        jti).refresh_token, some client_ip, none, now, now, true⟩,
      ?_, ?_, rfl⟩
    · simp [insertSession]
    · rw [hpair]
  · intro now2 sid2 jti2 ip2 hv2
    cases hv2x : verify_token presented "refresh" secret_key now2 with
    | none => exact absurd hv2x hv2
    | some td2 =>
      have hnone : fetchValidSessionBySecret
          (insertSession (invalidateSessionById s sess.id)
            ⟨session_id, user.id,
             .jwtTok (create_token_pair user.id user.email user.role
               secret_key now jti).refresh_token, some client_ip, none, now,
             now, true⟩) presented = none := by
        unfold fetchValidSessionBySecret
        rw [List.find?_eq_none]
        intro r hrmem hpred
        rw [Bool.and_eq_true, beq_iff_eq] at hpred
        have := hinv r hrmem hpred.1
        rw [this] at hpred
        exact Bool.false_ne_true hpred.2
      unfold refresh_token_route
      rw [hv2x, hnone]

theorem c2_refresh_single_use_witness :
    (∃ r ∈ c2State2.sessions,
       r.refresh_token = .jwtTok c2Pair.refresh_token ∧ r.is_valid = true) ∧
    refresh_token_route c2State2 (.jwtTok c2Jwt) "ip2" 2 10 "j2" "KEY"
      = (.sessionNotFound, c2State2) := by
  have h := c2_refresh_single_use c2State (.jwtTok c2Jwt) "ip" 1 9 "j1" "KEY"
    c2Pair c2State2 (by decide) (by decide)
    (by
      intro j hj
      injection hj with hj2
      subst hj2
      decide)
  exact ⟨h.2.1, h.2.2 2 10 "j2" "ip2" (by decide)⟩

end Agri
